import Mathlib

/-!
# Verification of `regrid/regrid.py` (esmlab-regrid)

Shallow embedding of the two classes of `src/regrid/regrid.py`:

* `grid_ref` — materializes a named grid definition into a SCRIP file
  (cached under `config.dir_grid_files`) and wraps it in an ESMF grid object;
* `regridder` — derives or loads precomputed interpolation weights between a
  source and destination grid (cached under `config.dir_weight_files`) and
  applies them to data arrays, with mask-aware renormalization, coordinate
  interpolation, masking and post-processing.

The external collaborators (the grid-generation helpers of `util`, `xarray`,
`ESMF`, and `xesmf`'s weight build / sparse-matrix-multiply) are not part of
this repository; they are modelled as abstract, possibly failing operations
(`Externals` for the file-level layer, explicit function parameters for the
data layer).  The file system is a list of existing paths, and the observable
side effects of construction are recorded as a list of `Event`s.
-/

/-- File-system state: the set of existing file paths. -/
abbrev FS := List String

/-- Observable file/library side effects of `grid_ref` / `regridder`
construction. -/
inductive Event where
  | genGrid (path : String)
  | readGrid (path : String)
  | removeFile (path : String)
  | genWeights (path : String)
  | readWeights (path : String)
  deriving DecidableEq, Repr

/-- The parts of `regrid/config.py` that `regrid.py` reads.
Modelled from the spec: `config` is not under `src/`; the spec describes it as
"file paths for grid and weight caches, keyed by name/method, under configured
directories" and "grid-generation helper functions keyed by name in a
configuration table" (`known_grids`).  Only membership of a name in the table
matters to the control flow of `regrid.py`, so the table is its list of keys. -/
structure Config where
  dir_grid_files : String
  dir_weight_files : String
  known_grids : List String

/-- The external library calls made during construction.  Each call may fail
(`Except`), and the grid/weight generators may change the file system. -/
structure Externals where
  /-- `util.<method>(name, file, **kwargs, clobber=clobber)` — writes the grid file. -/
  gen_grid_method : String → String → Bool → FS → Except String FS
  /-- `xr.open_dataset` + `ESMF.Grid(filename=...)` — reads the grid file,
  yielding `grid_dims` (the shape). -/
  open_scrip : String → FS → Except String (Nat × Nat)
  /-- `xe.backend.esmf_regrid_build(..., filename=weight_file, ...)` followed by
  `esmf_regrid_finalize` — writes the weight file. -/
  esmf_regrid_build : String → FS → Except String FS
  /-- `xe.smm.read_weights(weight_file, N_src, N_dst)` — reads the weight file. -/
  read_weights : String → FS → Except String Unit

/-- `self.scrip_grid_file = f'{config.dir_grid_files}/{self.name}.nc'` -/
def scripGridFile (cfg : Config) (name : String) : String :=
  cfg.dir_grid_files ++ "/" ++ name ++ ".nc"

/-- `grid_ref._gen_grid_file`: return early if the cached file exists and
`clobber` is not set; otherwise assert the name is known and generate. -/
def gen_grid_file (ext : Externals) (cfg : Config) (name : String) (clobber : Bool)
    (fs : FS) : Except String (FS × List Event) :=
  let path := scripGridFile cfg name
  if path ∈ fs ∧ clobber = false then .ok (fs, [])
  else if name ∈ cfg.known_grids then
    match ext.gen_grid_method name path clobber fs with
    | .error e => .error e
    | .ok fs1 => .ok (fs1, [Event.genGrid path])
  else .error ("Unknown grid: " ++ name)

/-- The fields of a `grid_ref` relevant at the file level (`self.ds`,
`self.grid` and the mask live inside the external library). -/
structure GridRefFS where
  name : String
  scrip_grid_file : String
  shape : Nat × Nat
  deriving DecidableEq, Repr

/-- `grid_ref.__init__`: `_gen_grid_file` then `_esmf_grid_from_scrip`. -/
def grid_ref_init (ext : Externals) (cfg : Config) (name : String) (clobber : Bool)
    (fs : FS) : Except String (GridRefFS × FS × List Event) :=
  match gen_grid_file ext cfg name clobber fs with
  | .error e => .error e
  | .ok (fs1, ev) =>
    let path := scripGridFile cfg name
    match ext.open_scrip path fs1 with
    | .error e => .error e
    | .ok shape =>
      .ok ({ name := name, scrip_grid_file := path, shape := shape }, fs1,
           ev ++ [Event.readGrid path])

/-- `'{0}/{1}_to_{2}_{3}.nc'.format(config.dir_weight_files, src, dst, method)` -/
def weightFile (cfg : Config) (src dst method : String) : String :=
  cfg.dir_weight_files ++ "/" ++ src ++ "_to_" ++ dst ++ "_" ++ method ++ ".nc"

/-- `regridder._gen_weights`: if the weight file exists, either remove and
regenerate it (`clobber`) or return; otherwise generate it. -/
def gen_weights (ext : Externals) (cfg : Config) (src dst method : String)
    (clobber : Bool) (fs : FS) : Except String (FS × List Event) :=
  let wf := weightFile cfg src dst method
  if wf ∈ fs then
    if clobber then
      match ext.esmf_regrid_build wf (fs.erase wf) with
      | .error e => .error e
      | .ok fs1 => .ok (fs1, [Event.removeFile wf, Event.genWeights wf])
    else .ok (fs, [])
  else
    match ext.esmf_regrid_build wf fs with
    | .error e => .error e
    | .ok fs1 => .ok (fs1, [Event.genWeights wf])

/-- The fields of a `regridder` relevant at the file level (`self.A` is the
loaded weight matrix, held by the external library). -/
structure RegridderFS where
  name_grid_src : String
  name_grid_dst : String
  grid_ref_src : GridRefFS
  grid_ref_dst : GridRefFS
  method : String
  clobber : Bool
  N_src : Nat
  N_dst : Nat
  weight_file : String
  deriving DecidableEq, Repr

/-- `regridder.__init__`: build the two grid references (note: `clobber` is
NOT forwarded to `grid_ref`), compute N_src/N_dst, `_gen_weights`, then
`xe.smm.read_weights`. -/
def regridder_init (ext : Externals) (cfg : Config)
    (name_grid_src name_grid_dst method : String) (clobber : Bool) (fs : FS) :
    Except String (RegridderFS × FS × List Event) :=
  match grid_ref_init ext cfg name_grid_src false fs with
  | .error e => .error e
  | .ok (gsrc, fs1, ev1) =>
    match grid_ref_init ext cfg name_grid_dst false fs1 with
    | .error e => .error e
    | .ok (gdst, fs2, ev2) =>
      let nsrc := gsrc.shape.1 * gsrc.shape.2
      let ndst := gdst.shape.1 * gdst.shape.2
      match gen_weights ext cfg name_grid_src name_grid_dst method clobber fs2 with
      | .error e => .error e
      | .ok (fs3, ev3) =>
        let wf := weightFile cfg name_grid_src name_grid_dst method
        match ext.read_weights wf fs3 with
        | .error e => .error e
        | .ok _ =>
          .ok ({ name_grid_src := name_grid_src, name_grid_dst := name_grid_dst,
                 grid_ref_src := gsrc, grid_ref_dst := gdst, method := method,
                 clobber := clobber, N_src := nsrc, N_dst := ndst,
                 weight_file := wf }, fs3,
               ev1 ++ ev2 ++ ev3 ++ [Event.readWeights wf])

/-- Add a path to the file system (file writes create the file). -/
def insertFile (p : String) (fs : FS) : FS := if p ∈ fs then fs else fs ++ [p]

/-- The externals behaving as documented when nothing goes wrong: generators
write their file, readers succeed exactly when the file exists.  `shapes`
gives the grid dimensions stored in each grid file. -/
def idealExt (shapes : String → Nat × Nat) : Externals where
  gen_grid_method := fun _ path _ fs => .ok (insertFile path fs)
  open_scrip := fun path fs =>
    if path ∈ fs then .ok (shapes path) else .error ("No such file: " ++ path)
  esmf_regrid_build := fun path fs => .ok (insertFile path fs)
  read_weights := fun path fs =>
    if path ∈ fs then .ok () else .error ("No such file: " ++ path)

/-- Events of a construction result (empty when construction failed). -/
def eventsOf {α : Type} : Except String (α × FS × List Event) → List Event
  | .ok (_, _, ev) => ev
  | .error _ => []

/-- File system after a construction (the input one when construction failed). -/
def fsOf {α : Type} (fs : FS) : Except String (α × FS × List Event) → FS
  | .ok (_, fs1, _) => fs1
  | .error _ => fs

/-! ## Data layer: `regrid_dataarray` and `__call__`

Values of a data array are `Option ℚ`: `some q` is a finite value, `none` is
NaN (missing).  The elementwise numpy operations the code uses are modelled
below with numpy's NaN semantics (`NaN > 0` is false, division by NaN is NaN).
The sparse-matrix application `xe.smm.apply_weights(self.A, data, shape[1],
shape[0])` is an external collaborator: it is modelled as the action
`self.A : List Val → List Val` of the loaded weight matrix (the two shape
arguments only reshape its output and are folded into the action). -/

/-- A cell value: `some q` finite, `none` NaN. -/
abbrev Val := Option ℚ

/-- `np.where(np.isnan(x), 0., 1.)` — the indicator of non-missing cells. -/
def onesWhere (xs : List Val) : List Val :=
  xs.map (fun v => if v.isNone then some 0 else some 1)

/-- `np.where(np.isnan(x), 0., x)` — missing values replaced by zero. -/
def nanToZero (xs : List Val) : List Val := xs.map (fun v => some (v.getD 0))

/-- numpy `v > 0.` (false on NaN). -/
def valGt0 (v : Val) : Bool :=
  match v with
  | some q => decide (0 < q)
  | none => false

/-- Elementwise division; NaN propagates.  (The code only divides where the
denominator is NaN or strictly positive, so `ℚ` division is faithful.) -/
def valDiv (a b : Val) : Val :=
  match a, b with
  | some x, some y => some (x / y)
  | _, _ => none

/-- Python dict lookup `d[k]` over an association list (keys are unique in a
dict, so the first match is the value). -/
def dictGet {α : Type} (l : List (String × α)) (k : String) : Option α :=
  match l with
  | [] => none
  | p :: rest => if p.1 = k then some p.2 else dictGet rest k

/-- An `xarray.DataArray`: name, dimension names, coordinates (an assoc list
keyed by dimension name), attributes, and flattened values. -/
structure DataArray where
  name : Option String
  dims : List String
  coords : List (String × List ℚ)
  attrs : List (String × String)
  values : List Val
  deriving DecidableEq, Repr

/-- Python dict assignment `attrs[k] = v` (overwrite or append). -/
def setAttr (attrs : List (String × String)) (k v : String) :
    List (String × String) :=
  if attrs.any (fun p => p.1 = k) then
    attrs.map (fun p => if p.1 = k then (k, v) else p)
  else attrs ++ [(k, v)]

/-- The fields of a `regridder` that `regrid_dataarray` reads. -/
structure RegridderD where
  /-- action of `xe.smm.apply_weights(self.A, ·, dst_shape[1], dst_shape[0])` -/
  A : List Val → List Val
  method : String

/-- The external `xarray` methods called on the output array. -/
structure Libs where
  /-- `da.interp(coords={dim: new_coord}, method='linear', assume_sorted=True,
  kwargs={'fill_value': extrap_values})`, where `extrap_values` is derived from
  `da` itself (`isel` at the first and last index of `dim`). -/
  interp : DataArray → String → List ℚ → DataArray
  /-- `da.where(mask)` -/
  xwhere : DataArray → DataArray → DataArray

/-- `logging.warning(f'masking {apply_mask.dims}; data have dims: {da_in.dims}')` -/
def maskWarning (mask_dims data_dims : List String) : String :=
  "masking " ++ toString mask_dims ++ "; data have dims: " ++ toString data_dims

/-- The `for dim,new_coord in interp_coord.items()` loop: interpolate along
each named coordinate that is a dimension of the array. -/
def interpLoop (libs : Libs) (interp_coord : List (String × List ℚ))
    (da : DataArray) : DataArray :=
  interp_coord.foldl (fun a p => if p.1 ∈ a.dims then libs.interp a p.1 p.2 else a) da

/-- `regridder.regrid_dataarray`.  `post_method_kwargs` is folded into
`post_method`.  Returns the output array together with the warnings logged.
Note `xarray`'s `attrs` setter copies the dict passed to the `DataArray`
constructor, so the update `da_out.attrs['regrid_method'] = self.method` does
not alias `da_in.attrs`; `setAttr` on the copied list models this. -/
def regrid_dataarray (libs : Libs) (self : RegridderD) (da_in : DataArray)
    (renormalize : Bool) (apply_mask : Option DataArray)
    (interp_coord : List (String × List ℚ))
    (post_method : Option (DataArray → DataArray)) : DataArray × List String :=
  -- pull data, dims and coords from incoming DataArray
  let data_src := da_in.values
  let non_lateral_dims := da_in.dims.take (da_in.dims.length - 2)
  let copy_coords := non_lateral_dims.filterMap
      (fun d => (dictGet da_in.coords d).map (fun c => (d, c)))
  -- if renormalize == True, remap a field of ones
  let ones_src := onesWhere da_in.values
  let data_src := if renormalize then nanToZero data_src else data_src
  -- remap the field
  let data_dst := self.A data_src
  -- renormalize to include only non-missing data_src
  let data_dst :=
    if renormalize then
      let ones_dst := self.A ones_src
      let ones_dst := ones_dst.map (fun v => if valGt0 v then v else none)
      let data_dst := List.zipWith valDiv data_dst ones_dst
      List.zipWith (fun d o => if valGt0 o then d else none) data_dst ones_dst
    else data_dst
  -- reform into xarray.DataArray
  let da_out : DataArray :=
    { name := da_in.name, dims := da_in.dims, coords := copy_coords,
      attrs := da_in.attrs, values := data_dst }
  let da_out := { da_out with attrs := setAttr da_out.attrs "regrid_method" self.method }
  -- interpolate coordinates (i.e., vertical)
  let da_out := interpLoop libs interp_coord da_out
  -- apply a missing-values mask
  let out :=
    match apply_mask with
    | none => (da_out, ([] : List String))
    | some m =>
      if m.dims ≠ da_in.dims then
        (libs.xwhere da_out m, [maskWarning m.dims da_in.dims])
      else (libs.xwhere da_out m, [])
  -- apply a post_method
  match post_method with
  | none => out
  | some f => (f out.1, out.2)

/-- `regridder.__call__`: forwards every argument to `regrid_dataarray`. -/
def regridder_call (libs : Libs) (self : RegridderD) (da_in : DataArray)
    (renormalize : Bool) (apply_mask : Option DataArray)
    (interp_coord : List (String × List ℚ))
    (post_method : Option (DataArray → DataArray)) : DataArray × List String :=
  regrid_dataarray libs self da_in renormalize apply_mask interp_coord post_method

/-- State-threaded translation of `regrid_dataarray`: the Python objects that
could be mutated (`self` and `da_in`) are threaded through the body
explicitly, every field read goes through the threaded state, and the final
state is returned alongside the result.  No statement of the source assigns
to `self` or `da_in`, so no update to `st` appears. -/
def regrid_dataarray_st (libs : Libs) (st : RegridderD × DataArray)
    (renormalize : Bool) (apply_mask : Option DataArray)
    (interp_coord : List (String × List ℚ))
    (post_method : Option (DataArray → DataArray)) :
    (RegridderD × DataArray) × DataArray × List String :=
  let data_src := st.2.values
  let non_lateral_dims := st.2.dims.take (st.2.dims.length - 2)
  let copy_coords := non_lateral_dims.filterMap
      (fun d => (dictGet st.2.coords d).map (fun c => (d, c)))
  let ones_src := onesWhere st.2.values
  let data_src := if renormalize then nanToZero data_src else data_src
  let data_dst := st.1.A data_src
  let data_dst :=
    if renormalize then
      let ones_dst := st.1.A ones_src
      let ones_dst := ones_dst.map (fun v => if valGt0 v then v else none)
      let data_dst := List.zipWith valDiv data_dst ones_dst
      List.zipWith (fun d o => if valGt0 o then d else none) data_dst ones_dst
    else data_dst
  let da_out : DataArray :=
    { name := st.2.name, dims := st.2.dims, coords := copy_coords,
      attrs := st.2.attrs, values := data_dst }
  let da_out := { da_out with attrs := setAttr da_out.attrs "regrid_method" st.1.method }
  let da_out := interpLoop libs interp_coord da_out
  let out :=
    match apply_mask with
    | none => (da_out, ([] : List String))
    | some m =>
      if m.dims ≠ st.2.dims then
        (libs.xwhere da_out m, [maskWarning m.dims st.2.dims])
      else (libs.xwhere da_out m, [])
  match post_method with
  | none => (st, out)
  | some f => (st, (f out.1, out.2))

/-! ## Helper lemmas -/

lemma mem_insertFile_self (p : String) (fs : FS) : p ∈ insertFile p fs := by
  unfold insertFile
  split
  · assumption
  · simp

lemma mem_insertFile_of_mem (q p : String) (fs : FS) (h : q ∈ fs) :
    q ∈ insertFile p fs := by
  unfold insertFile
  split
  · exact h
  · simp [h]

lemma insertFile_of_not_mem (p : String) (fs : FS) (h : p ∉ fs) :
    insertFile p fs = fs ++ [p] := by
  simp [insertFile, h]

lemma grid_ref_init_cached (s : String → Nat × Nat) (cfg : Config) (name : String)
    (fs : FS) (h : scripGridFile cfg name ∈ fs) :
    grid_ref_init (idealExt s) cfg name false fs
      = .ok ({ name := name, scrip_grid_file := scripGridFile cfg name,
               shape := s (scripGridFile cfg name) }, fs,
             [Event.readGrid (scripGridFile cfg name)]) := by
  simp [grid_ref_init, gen_grid_file, idealExt, h]

lemma grid_ref_init_gen (s : String → Nat × Nat) (cfg : Config) (name : String)
    (fs : FS) (hnp : scripGridFile cfg name ∉ fs) (hk : name ∈ cfg.known_grids) :
    grid_ref_init (idealExt s) cfg name false fs
      = .ok ({ name := name, scrip_grid_file := scripGridFile cfg name,
               shape := s (scripGridFile cfg name) }, fs ++ [scripGridFile cfg name],
             [Event.genGrid (scripGridFile cfg name),
              Event.readGrid (scripGridFile cfg name)]) := by
  simp [grid_ref_init, gen_grid_file, idealExt, hnp, hk, insertFile]

/-! ## Claims C8, C6, C1, C2 -/

/-- C8: invoking the regridder as a callable returns exactly the same result
as invoking `regrid_dataarray` with the same arguments. -/
theorem call_eq_regrid_dataarray (libs : Libs) (self : RegridderD) (da_in : DataArray)
    (renormalize : Bool) (apply_mask : Option DataArray)
    (interp_coord : List (String × List ℚ))
    (post_method : Option (DataArray → DataArray)) :
    regridder_call libs self da_in renormalize apply_mask interp_coord post_method
      = regrid_dataarray libs self da_in renormalize apply_mask interp_coord post_method :=
  rfl

/-- C6: applying the regridder mutates neither the regridder nor the input
array: the state-threaded translation returns the threaded objects unchanged,
together with the same freshly constructed output as the functional version. -/
theorem regrid_dataarray_no_mutation (libs : Libs) (self : RegridderD) (da_in : DataArray)
    (renormalize : Bool) (apply_mask : Option DataArray)
    (interp_coord : List (String × List ℚ))
    (post_method : Option (DataArray → DataArray)) :
    regrid_dataarray_st libs (self, da_in) renormalize apply_mask interp_coord post_method
      = ((self, da_in),
         regrid_dataarray libs self da_in renormalize apply_mask interp_coord post_method) := by
  unfold regrid_dataarray_st regrid_dataarray
  cases post_method <;> rfl

/-- C1: for a known grid name, constructing a grid reference when the cache
file already exists and overwrite is not set performs no generation and leaves
the file system unchanged; and a second construction after any successful
first one generates nothing and leaves the same file state as the first. -/
theorem grid_file_generated_once (s : String → Nat × Nat) (cfg : Config)
    (name : String) (fs : FS) (g : GridRefFS) (fs1 : FS) (ev1 : List Event)
    (hk : name ∈ cfg.known_grids)
    (h : grid_ref_init (idealExt s) cfg name false fs = .ok (g, fs1, ev1)) :
    (scripGridFile cfg name ∈ fs →
       fs1 = fs ∧ ev1 = [Event.readGrid (scripGridFile cfg name)]) ∧
    grid_ref_init (idealExt s) cfg name false fs1
      = .ok (g, fs1, [Event.readGrid (scripGridFile cfg name)]) := by
  by_cases hp : scripGridFile cfg name ∈ fs
  · rw [grid_ref_init_cached s cfg name fs hp] at h
    simp only [Except.ok.injEq, Prod.mk.injEq] at h
    obtain ⟨hg, hfs, hev⟩ := h
    subst hg hfs hev
    exact ⟨fun _ => ⟨rfl, rfl⟩, grid_ref_init_cached s cfg name fs hp⟩
  · rw [grid_ref_init_gen s cfg name fs hp hk] at h
    simp only [Except.ok.injEq, Prod.mk.injEq] at h
    obtain ⟨hg, hfs, hev⟩ := h
    subst hg hfs hev
    refine ⟨fun hc => absurd hc hp, ?_⟩
    exact grid_ref_init_cached s cfg name _ (by simp)

/-- Witness for C1 at a concrete configuration where the cache file exists. -/
theorem grid_file_generated_once_witness :
    ((("g/a.nc" : String) ∈ (["g/a.nc"] : FS) →
       (["g/a.nc"] : FS) = ["g/a.nc"] ∧
       ([Event.readGrid "g/a.nc"] : List Event) = [Event.readGrid "g/a.nc"]) ∧
     grid_ref_init (idealExt fun _ => (1, 1)) (Config.mk "g" "w" ["a"]) "a" false ["g/a.nc"]
       = .ok ({ name := "a", scrip_grid_file := "g/a.nc", shape := (1, 1) },
              ["g/a.nc"], [Event.readGrid "g/a.nc"])) :=
  grid_file_generated_once (fun _ => (1, 1)) (Config.mk "g" "w" ["a"]) "a" ["g/a.nc"]
    { name := "a", scrip_grid_file := "g/a.nc", shape := (1, 1) } ["g/a.nc"]
    [Event.readGrid "g/a.nc"] (by simp) (by rfl)

/-- C2 counterexample: an unknown grid name whose cache file already exists is
accepted (the existence check precedes the assertion), so construction does
not fail with an assertion error. -/
theorem unknown_grid_cached_succeeds :
    ("foo" ∉ (Config.mk "g" "w" []).known_grids) ∧
    grid_ref_init (idealExt fun _ => (2, 3)) (Config.mk "g" "w" []) "foo" false ["g/foo.nc"]
      = .ok ({ name := "foo", scrip_grid_file := "g/foo.nc", shape := (2, 3) },
             ["g/foo.nc"], [Event.readGrid "g/foo.nc"]) := by
  constructor
  · simp
  · rfl

/-- C2 (amended): an unknown grid name makes construction fail with the
assertion error whenever the cache file is absent or overwrite is set (when
the cache file exists and overwrite is not set, the check is skipped). -/
theorem unknown_grid_rejected (ext : Externals) (cfg : Config) (name : String)
    (clobber : Bool) (fs : FS) (hunk : name ∉ cfg.known_grids)
    (hgen : scripGridFile cfg name ∉ fs ∨ clobber = true) :
    grid_ref_init ext cfg name clobber fs = .error ("Unknown grid: " ++ name) := by
  have hcond : ¬(scripGridFile cfg name ∈ fs ∧ clobber = false) := by
    rcases hgen with h | h
    · exact fun hc => h hc.1
    · exact fun hc => by simp [h] at hc
  simp [grid_ref_init, gen_grid_file, hcond, hunk]

/-- Witness for the amended C2 at a concrete unknown name with no cache file. -/
theorem unknown_grid_rejected_witness :
    grid_ref_init (idealExt fun _ => (1, 1)) (Config.mk "g" "w" []) "foo" false []
      = .error ("Unknown grid: " ++ "foo") :=
  unknown_grid_rejected (idealExt fun _ => (1, 1)) (Config.mk "g" "w" []) "foo" false []
    (by simp) (Or.inl (by simp))

/-! ## Claims C3 and C4 -/

lemma grid_ref_init_ideal_spec (s : String → Nat × Nat) (cfg : Config) (name : String)
    (clobber : Bool) (fs : FS) (g : GridRefFS) (fs1 : FS) (ev : List Event)
    (h : grid_ref_init (idealExt s) cfg name clobber fs = .ok (g, fs1, ev)) :
    (∀ p, p ∈ fs → p ∈ fs1) ∧
    (ev = [Event.readGrid (scripGridFile cfg name)] ∨
     ev = [Event.genGrid (scripGridFile cfg name),
           Event.readGrid (scripGridFile cfg name)]) := by
  by_cases hc : scripGridFile cfg name ∈ fs ∧ clobber = false
  · simp [grid_ref_init, gen_grid_file, idealExt, hc, hc.1] at h
    obtain ⟨-, hfs, hev⟩ := h
    subst hfs
    exact ⟨fun p hp => hp, Or.inl hev.symm⟩
  · by_cases hk : name ∈ cfg.known_grids
    · simp [grid_ref_init, gen_grid_file, idealExt, hc, hk, mem_insertFile_self] at h
      obtain ⟨-, hfs, hev⟩ := h
      subst hfs
      exact ⟨fun p hp => mem_insertFile_of_mem p _ fs hp, Or.inr hev.symm⟩
    · simp [grid_ref_init, gen_grid_file, idealExt, hc, hk] at h

/-- C3 counterexample: constructing a regridder with the overwrite flag set,
when both grid files and the weight file exist, regenerates only the weight
file: no grid-file generation event occurs (the grid references are built
without the overwrite flag). -/
theorem regridder_clobber_cex :
    eventsOf (regridder_init (idealExt fun _ => (2, 2)) (Config.mk "g" "w" ["a", "b"])
        "a" "b" "bilinear" true ["g/a.nc", "g/b.nc", "w/a_to_b_bilinear.nc"])
      = [Event.readGrid "g/a.nc", Event.readGrid "g/b.nc",
         Event.removeFile "w/a_to_b_bilinear.nc", Event.genWeights "w/a_to_b_bilinear.nc",
         Event.readWeights "w/a_to_b_bilinear.nc"] ∧
    Event.genGrid "g/a.nc" ∉
      eventsOf (regridder_init (idealExt fun _ => (2, 2)) (Config.mk "g" "w" ["a", "b"])
        "a" "b" "bilinear" true ["g/a.nc", "g/b.nc", "w/a_to_b_bilinear.nc"]) ∧
    Event.genGrid "g/b.nc" ∉
      eventsOf (regridder_init (idealExt fun _ => (2, 2)) (Config.mk "g" "w" ["a", "b"])
        "a" "b" "bilinear" true ["g/a.nc", "g/b.nc", "w/a_to_b_bilinear.nc"]) := by
  refine ⟨by rfl, ?_, ?_⟩ <;> decide

/-- C3 (amended): when the overwrite flag is set and the grid files and the
weight file all exist, only the weight file is regenerated (removed and
rebuilt); the grid references are constructed without the overwrite flag, so
the existing grid files are reused and no grid-file generation occurs. -/
theorem regridder_clobber_regen_weights_only (s : String → Nat × Nat) (cfg : Config)
    (src dst method : String) (fs : FS) (r : RegridderFS) (fs' : FS) (ev : List Event)
    (hs : scripGridFile cfg src ∈ fs) (hd : scripGridFile cfg dst ∈ fs)
    (hw : weightFile cfg src dst method ∈ fs)
    (h : regridder_init (idealExt s) cfg src dst method true fs = .ok (r, fs', ev)) :
    ev = [Event.readGrid (scripGridFile cfg src), Event.readGrid (scripGridFile cfg dst),
          Event.removeFile (weightFile cfg src dst method),
          Event.genWeights (weightFile cfg src dst method),
          Event.readWeights (weightFile cfg src dst method)] ∧
    Event.genGrid (scripGridFile cfg src) ∉ ev ∧
    Event.genGrid (scripGridFile cfg dst) ∉ ev := by
  have hval : regridder_init (idealExt s) cfg src dst method true fs
      = .ok ({ name_grid_src := src, name_grid_dst := dst,
               grid_ref_src := { name := src, scrip_grid_file := scripGridFile cfg src,
                                 shape := s (scripGridFile cfg src) },
               grid_ref_dst := { name := dst, scrip_grid_file := scripGridFile cfg dst,
                                 shape := s (scripGridFile cfg dst) },
               method := method, clobber := true,
               N_src := (s (scripGridFile cfg src)).1 * (s (scripGridFile cfg src)).2,
               N_dst := (s (scripGridFile cfg dst)).1 * (s (scripGridFile cfg dst)).2,
               weight_file := weightFile cfg src dst method },
             insertFile (weightFile cfg src dst method)
               (fs.erase (weightFile cfg src dst method)),
             [Event.readGrid (scripGridFile cfg src), Event.readGrid (scripGridFile cfg dst),
              Event.removeFile (weightFile cfg src dst method),
              Event.genWeights (weightFile cfg src dst method),
              Event.readWeights (weightFile cfg src dst method)]) := by
    simp only [regridder_init, grid_ref_init_cached s cfg src fs hs,
               grid_ref_init_cached s cfg dst fs hd]
    simp [gen_weights, hw, idealExt, mem_insertFile_self]
  rw [hval] at h
  simp only [Except.ok.injEq, Prod.mk.injEq] at h
  obtain ⟨-, -, hev⟩ := h
  subst hev
  simp

/-- Witness for the amended C3 at a concrete configuration. -/
theorem regridder_clobber_regen_weights_only_witness :
    ([Event.readGrid "g/a.nc", Event.readGrid "g/b.nc",
      Event.removeFile "w/a_to_b_conservative.nc", Event.genWeights "w/a_to_b_conservative.nc",
      Event.readWeights "w/a_to_b_conservative.nc"]
       = [Event.readGrid (scripGridFile (Config.mk "g" "w" ["a", "b"]) "a"),
          Event.readGrid (scripGridFile (Config.mk "g" "w" ["a", "b"]) "b"),
          Event.removeFile (weightFile (Config.mk "g" "w" ["a", "b"]) "a" "b" "conservative"),
          Event.genWeights (weightFile (Config.mk "g" "w" ["a", "b"]) "a" "b" "conservative"),
          Event.readWeights (weightFile (Config.mk "g" "w" ["a", "b"]) "a" "b" "conservative")]) ∧
    Event.genGrid (scripGridFile (Config.mk "g" "w" ["a", "b"]) "a") ∉
      ([Event.readGrid "g/a.nc", Event.readGrid "g/b.nc",
        Event.removeFile "w/a_to_b_conservative.nc", Event.genWeights "w/a_to_b_conservative.nc",
        Event.readWeights "w/a_to_b_conservative.nc"] : List Event) ∧
    Event.genGrid (scripGridFile (Config.mk "g" "w" ["a", "b"]) "b") ∉
      ([Event.readGrid "g/a.nc", Event.readGrid "g/b.nc",
        Event.removeFile "w/a_to_b_conservative.nc", Event.genWeights "w/a_to_b_conservative.nc",
        Event.readWeights "w/a_to_b_conservative.nc"] : List Event) :=
  regridder_clobber_regen_weights_only (fun _ => (2, 2)) (Config.mk "g" "w" ["a", "b"])
    "a" "b" "conservative" ["g/a.nc", "g/b.nc", "w/a_to_b_conservative.nc"]
    { name_grid_src := "a", name_grid_dst := "b",
      grid_ref_src := { name := "a", scrip_grid_file := "g/a.nc", shape := (2, 2) },
      grid_ref_dst := { name := "b", scrip_grid_file := "g/b.nc", shape := (2, 2) },
      method := "conservative", clobber := true, N_src := 4, N_dst := 4,
      weight_file := "w/a_to_b_conservative.nc" }
    ["g/a.nc", "g/b.nc", "w/a_to_b_conservative.nc"]
    [Event.readGrid "g/a.nc", Event.readGrid "g/b.nc",
     Event.removeFile "w/a_to_b_conservative.nc", Event.genWeights "w/a_to_b_conservative.nc",
     Event.readWeights "w/a_to_b_conservative.nc"]
    (by decide) (by decide) (by decide) (by rfl)

/-- C4: on regridder construction with the weight file already present, if the
overwrite flag is not set then weight generation is skipped (no removal, no
generation event) and the existing file is loaded; if the overwrite flag is
set, the weight file is removed and weight generation is performed. -/
theorem weight_cache_skip_or_regen (s : String → Nat × Nat) (cfg : Config)
    (src dst method : String) (clobber : Bool) (fs : FS) (r : RegridderFS)
    (fs' : FS) (ev : List Event)
    (hwf : weightFile cfg src dst method ∈ fs)
    (h : regridder_init (idealExt s) cfg src dst method clobber fs = .ok (r, fs', ev)) :
    (clobber = false →
       Event.genWeights (weightFile cfg src dst method) ∉ ev ∧
       Event.removeFile (weightFile cfg src dst method) ∉ ev ∧
       Event.readWeights (weightFile cfg src dst method) ∈ ev) ∧
    (clobber = true →
       Event.removeFile (weightFile cfg src dst method) ∈ ev ∧
       Event.genWeights (weightFile cfg src dst method) ∈ ev ∧
       Event.readWeights (weightFile cfg src dst method) ∈ ev) := by
  unfold regridder_init at h
  split at h
  · simp at h
  · rename_i gsrc fs1 ev1 heq1
    split at h
    · simp at h
    · rename_i gdst fs2 ev2 heq2
      split at h
      · simp at h
      · rename_i fs3 ev3 heq3
        simp only [idealExt] at h
        split at h
        · simp at h
        · simp only [Except.ok.injEq, Prod.mk.injEq] at h
          obtain ⟨-, -, hev⟩ := h
          subst hev
          obtain ⟨hm1, hcase1⟩ := grid_ref_init_ideal_spec s cfg src false fs gsrc fs1 ev1 heq1
          obtain ⟨hm2, hcase2⟩ := grid_ref_init_ideal_spec s cfg dst false fs1 gdst fs2 ev2 heq2
          have hwf2 : weightFile cfg src dst method ∈ fs2 := hm2 _ (hm1 _ hwf)
          cases clobber with
          | false =>
            simp only [gen_weights, hwf2, if_pos, Bool.false_eq_true, if_false,
                       Except.ok.injEq, Prod.mk.injEq, if_true] at heq3
            obtain ⟨-, hev3⟩ := heq3
            subst hev3
            refine ⟨fun _ => ⟨?_, ?_, ?_⟩, fun hc => absurd hc (by simp)⟩ <;>
              rcases hcase1 with rfl | rfl <;> rcases hcase2 with rfl | rfl <;> simp
          | true =>
            simp only [gen_weights, hwf2, if_pos, if_true, idealExt,
                       Except.ok.injEq, Prod.mk.injEq] at heq3
            obtain ⟨-, hev3⟩ := heq3
            subst hev3
            refine ⟨fun hc => absurd hc (by simp), fun _ => ⟨?_, ?_, ?_⟩⟩ <;> simp

/-- Witness for C4 at a concrete configuration, in both the skip branch
(overwrite not set) and the regenerate branch (overwrite set). -/
theorem weight_cache_skip_or_regen_witness :
    (((false = false →
        Event.genWeights "w/a_to_b_bilinear.nc" ∉
          ([Event.readGrid "g/a.nc", Event.readGrid "g/b.nc",
            Event.readWeights "w/a_to_b_bilinear.nc"] : List Event) ∧
        Event.removeFile "w/a_to_b_bilinear.nc" ∉
          ([Event.readGrid "g/a.nc", Event.readGrid "g/b.nc",
            Event.readWeights "w/a_to_b_bilinear.nc"] : List Event) ∧
        Event.readWeights "w/a_to_b_bilinear.nc" ∈
          ([Event.readGrid "g/a.nc", Event.readGrid "g/b.nc",
            Event.readWeights "w/a_to_b_bilinear.nc"] : List Event)) ∧
      (false = true →
        Event.removeFile "w/a_to_b_bilinear.nc" ∈
          ([Event.readGrid "g/a.nc", Event.readGrid "g/b.nc",
            Event.readWeights "w/a_to_b_bilinear.nc"] : List Event) ∧
        Event.genWeights "w/a_to_b_bilinear.nc" ∈
          ([Event.readGrid "g/a.nc", Event.readGrid "g/b.nc",
            Event.readWeights "w/a_to_b_bilinear.nc"] : List Event) ∧
        Event.readWeights "w/a_to_b_bilinear.nc" ∈
          ([Event.readGrid "g/a.nc", Event.readGrid "g/b.nc",
            Event.readWeights "w/a_to_b_bilinear.nc"] : List Event))) ∧
     ((true = false →
        Event.genWeights "w/a_to_b_bilinear.nc" ∉
          ([Event.readGrid "g/a.nc", Event.readGrid "g/b.nc",
            Event.removeFile "w/a_to_b_bilinear.nc", Event.genWeights "w/a_to_b_bilinear.nc",
            Event.readWeights "w/a_to_b_bilinear.nc"] : List Event) ∧
        Event.removeFile "w/a_to_b_bilinear.nc" ∉
          ([Event.readGrid "g/a.nc", Event.readGrid "g/b.nc",
            Event.removeFile "w/a_to_b_bilinear.nc", Event.genWeights "w/a_to_b_bilinear.nc",
            Event.readWeights "w/a_to_b_bilinear.nc"] : List Event) ∧
        Event.readWeights "w/a_to_b_bilinear.nc" ∈
          ([Event.readGrid "g/a.nc", Event.readGrid "g/b.nc",
            Event.removeFile "w/a_to_b_bilinear.nc", Event.genWeights "w/a_to_b_bilinear.nc",
            Event.readWeights "w/a_to_b_bilinear.nc"] : List Event)) ∧
      (true = true →
        Event.removeFile "w/a_to_b_bilinear.nc" ∈
          ([Event.readGrid "g/a.nc", Event.readGrid "g/b.nc",
            Event.removeFile "w/a_to_b_bilinear.nc", Event.genWeights "w/a_to_b_bilinear.nc",
            Event.readWeights "w/a_to_b_bilinear.nc"] : List Event) ∧
        Event.genWeights "w/a_to_b_bilinear.nc" ∈
          ([Event.readGrid "g/a.nc", Event.readGrid "g/b.nc",
            Event.removeFile "w/a_to_b_bilinear.nc", Event.genWeights "w/a_to_b_bilinear.nc",
            Event.readWeights "w/a_to_b_bilinear.nc"] : List Event) ∧
        Event.readWeights "w/a_to_b_bilinear.nc" ∈
          ([Event.readGrid "g/a.nc", Event.readGrid "g/b.nc",
            Event.removeFile "w/a_to_b_bilinear.nc", Event.genWeights "w/a_to_b_bilinear.nc",
            Event.readWeights "w/a_to_b_bilinear.nc"] : List Event)))) :=
  ⟨weight_cache_skip_or_regen (fun _ => (2, 2)) (Config.mk "g" "w" ["a", "b"])
      "a" "b" "bilinear" false ["g/a.nc", "g/b.nc", "w/a_to_b_bilinear.nc"]
      { name_grid_src := "a", name_grid_dst := "b",
        grid_ref_src := { name := "a", scrip_grid_file := "g/a.nc", shape := (2, 2) },
        grid_ref_dst := { name := "b", scrip_grid_file := "g/b.nc", shape := (2, 2) },
        method := "bilinear", clobber := false, N_src := 4, N_dst := 4,
        weight_file := "w/a_to_b_bilinear.nc" }
      ["g/a.nc", "g/b.nc", "w/a_to_b_bilinear.nc"]
      [Event.readGrid "g/a.nc", Event.readGrid "g/b.nc",
       Event.readWeights "w/a_to_b_bilinear.nc"]
      (by decide) (by rfl),
   weight_cache_skip_or_regen (fun _ => (2, 2)) (Config.mk "g" "w" ["a", "b"])
      "a" "b" "bilinear" true ["g/a.nc", "g/b.nc", "w/a_to_b_bilinear.nc"]
      { name_grid_src := "a", name_grid_dst := "b",
        grid_ref_src := { name := "a", scrip_grid_file := "g/a.nc", shape := (2, 2) },
        grid_ref_dst := { name := "b", scrip_grid_file := "g/b.nc", shape := (2, 2) },
        method := "bilinear", clobber := true, N_src := 4, N_dst := 4,
        weight_file := "w/a_to_b_bilinear.nc" }
      ["g/a.nc", "g/b.nc", "w/a_to_b_bilinear.nc"]
      [Event.readGrid "g/a.nc", Event.readGrid "g/b.nc",
       Event.removeFile "w/a_to_b_bilinear.nc", Event.genWeights "w/a_to_b_bilinear.nc",
       Event.readWeights "w/a_to_b_bilinear.nc"]
      (by decide) (by rfl)⟩

/-! ## Claim C7: error propagation -/

lemma gen_grid_file_error_cases (ext : Externals) (cfg : Config) (name : String)
    (clobber : Bool) (fs : FS) (e : String)
    (h : gen_grid_file ext cfg name clobber fs = .error e) :
    (name ∉ cfg.known_grids ∧ e = "Unknown grid: " ++ name) ∨
    (∃ n p c f, ext.gen_grid_method n p c f = .error e) := by
  unfold gen_grid_file at h
  simp only [] at h
  split at h
  · simp at h
  · split at h
    · split at h
      · rename_i e1 heq
        injection h with h'
        subst h'
        exact Or.inr ⟨name, scripGridFile cfg name, clobber, fs, heq⟩
      · simp at h
    · rename_i hk
      injection h with h'
      exact Or.inl ⟨hk, h'.symm⟩

lemma grid_ref_init_error_cases (ext : Externals) (cfg : Config) (name : String)
    (clobber : Bool) (fs : FS) (e : String)
    (h : grid_ref_init ext cfg name clobber fs = .error e) :
    (name ∉ cfg.known_grids ∧ e = "Unknown grid: " ++ name) ∨
    (∃ n p c f, ext.gen_grid_method n p c f = .error e) ∨
    (∃ p f, ext.open_scrip p f = .error e) := by
  unfold grid_ref_init at h
  split at h
  · rename_i e1 heq
    injection h with h'
    subst h'
    rcases gen_grid_file_error_cases ext cfg name clobber fs e1 heq with h1 | h2
    · exact Or.inl h1
    · exact Or.inr (Or.inl h2)
  · rename_i fs1 ev heq1
    simp only [] at h
    split at h
    · rename_i e1 heq2
      injection h with h'
      subst h'
      exact Or.inr (Or.inr ⟨scripGridFile cfg name, fs1, heq2⟩)
    · simp at h

lemma gen_weights_error_cases (ext : Externals) (cfg : Config) (src dst method : String)
    (clobber : Bool) (fs : FS) (e : String)
    (h : gen_weights ext cfg src dst method clobber fs = .error e) :
    ∃ p f, ext.esmf_regrid_build p f = .error e := by
  unfold gen_weights at h
  simp only [] at h
  split at h
  · split at h
    · split at h
      · rename_i e1 heq
        injection h with h'
        subst h'
        exact ⟨_, _, heq⟩
      · simp at h
    · simp at h
  · split at h
    · rename_i e1 heq
      injection h with h'
      subst h'
      exact ⟨_, _, heq⟩
    · simp at h

/-- C7: every failure during grid-reference or regridder construction is
either the unknown-grid assertion or the verbatim error value returned by one
of the external library calls: no catching, no retry, no wrapping. -/
theorem construction_errors_propagate (ext : Externals) (cfg : Config)
    (name src dst method : String) (clobber clobber2 : Bool) (gfs fs : FS) (e : String)
    (h : grid_ref_init ext cfg name clobber gfs = .error e ∨
         regridder_init ext cfg src dst method clobber2 fs = .error e) :
    (∃ n, n ∉ cfg.known_grids ∧ e = "Unknown grid: " ++ n) ∨
    (∃ n p c f, ext.gen_grid_method n p c f = .error e) ∨
    (∃ p f, ext.open_scrip p f = .error e) ∨
    (∃ p f, ext.esmf_regrid_build p f = .error e) ∨
    (∃ p f, ext.read_weights p f = .error e) := by
  rcases h with h | h
  · rcases grid_ref_init_error_cases ext cfg name clobber gfs e h with ⟨hn, he⟩ | h2 | h3
    · exact Or.inl ⟨name, hn, he⟩
    · exact Or.inr (Or.inl h2)
    · exact Or.inr (Or.inr (Or.inl h3))
  · unfold regridder_init at h
    split at h
    · rename_i e1 heq
      injection h with h'
      subst h'
      rcases grid_ref_init_error_cases ext cfg src false fs e1 heq with ⟨hn, he⟩ | h2 | h3
      · exact Or.inl ⟨src, hn, he⟩
      · exact Or.inr (Or.inl h2)
      · exact Or.inr (Or.inr (Or.inl h3))
    · rename_i gsrc fs1 ev1 heq1
      split at h
      · rename_i e1 heq
        injection h with h'
        subst h'
        rcases grid_ref_init_error_cases ext cfg dst false fs1 e1 heq with ⟨hn, he⟩ | h2 | h3
        · exact Or.inl ⟨dst, hn, he⟩
        · exact Or.inr (Or.inl h2)
        · exact Or.inr (Or.inr (Or.inl h3))
      · rename_i gdst fs2 ev2 heq2
        split at h
        · rename_i e1 heq
          injection h with h'
          subst h'
          exact Or.inr (Or.inr (Or.inr (Or.inl
            (gen_weights_error_cases ext cfg src dst method clobber2 fs2 e1 heq))))
        · rename_i fs3 ev3 heq3
          simp only [] at h
          split at h
          · rename_i e1 heq
            injection h with h'
            subst h'
            exact Or.inr (Or.inr (Or.inr (Or.inr ⟨_, _, heq⟩)))
          · simp at h

/-- An externals instance whose grid-file read always fails. -/
def failingExt : Externals where
  gen_grid_method := fun _ _ _ fs => .ok fs
  open_scrip := fun _ _ => .error "boom"
  esmf_regrid_build := fun _ fs => .ok fs
  read_weights := fun _ _ => .ok ()

/-- Witness for C7: with a grid-file read that fails with "boom", the
regridder construction fails with exactly that error. -/
theorem construction_errors_propagate_witness :
    (∃ n, n ∉ (Config.mk "g" "w" ["a", "b"]).known_grids ∧ "boom" = "Unknown grid: " ++ n) ∨
    (∃ n p c f, failingExt.gen_grid_method n p c f = .error "boom") ∨
    (∃ p f, failingExt.open_scrip p f = .error "boom") ∨
    (∃ p f, failingExt.esmf_regrid_build p f = .error "boom") ∨
    (∃ p f, failingExt.read_weights p f = .error "boom") :=
  construction_errors_propagate failingExt (Config.mk "g" "w" ["a", "b"])
    "a" "a" "b" "bilinear" false false [] [] "boom" (Or.inr (by rfl))

/-! ## Claim C9: metadata of the regridded output -/

lemma dictGet_append {α : Type} (l1 l2 : List (String × α)) (k : String) :
    dictGet (l1 ++ l2) k
      = match dictGet l1 k with
        | some v => some v
        | none => dictGet l2 k := by
  induction l1 with
  | nil => simp [dictGet]
  | cons p rest ih =>
    by_cases hp : p.1 = k <;> simp [dictGet, hp, ih]

lemma dictGet_eq_none {α : Type} (l : List (String × α)) (k : String)
    (h : l.any (fun p => decide (p.1 = k)) = false) : dictGet l k = none := by
  induction l with
  | nil => rfl
  | cons p rest ih =>
    rw [List.any_cons, Bool.or_eq_false_iff] at h
    obtain ⟨h1, h2⟩ := h
    rw [decide_eq_false_iff_not] at h1
    simp [dictGet, h1, ih h2]

lemma dictGet_map_overwrite (a : List (String × String)) (k v : String)
    (h : a.any (fun p => decide (p.1 = k)) = true) :
    dictGet (a.map (fun p => if p.1 = k then (k, v) else p)) k = some v := by
  induction a with
  | nil => simp at h
  | cons p rest ih =>
    by_cases hp : p.1 = k
    · simp [dictGet, hp]
    · rw [List.any_cons] at h
      simp only [List.map_cons, if_neg hp]
      rw [show dictGet (p :: rest.map (fun p => if p.1 = k then (k, v) else p)) k
            = dictGet (rest.map (fun p => if p.1 = k then (k, v) else p)) k by
            simp [dictGet, hp]]
      apply ih
      simpa [hp] using h

lemma dictGet_map_preserve (a : List (String × String)) (k v k' : String)
    (hne : ¬(k' = k)) :
    dictGet (a.map (fun p => if p.1 = k then (k, v) else p)) k' = dictGet a k' := by
  induction a with
  | nil => rfl
  | cons p rest ih =>
    by_cases hp : p.1 = k
    · have hkk : ¬(k = k') := fun hh => hne hh.symm
      have hpk : ¬(p.1 = k') := by rw [hp]; exact hkk
      simp only [List.map_cons, if_pos hp, dictGet, if_neg hkk, if_neg hpk]
      exact ih
    · simp only [List.map_cons, if_neg hp, dictGet]
      by_cases hp' : p.1 = k'
      · rw [if_pos hp', if_pos hp']
      · rw [if_neg hp', if_neg hp']
        exact ih

lemma dictGet_setAttr_self (a : List (String × String)) (k v : String) :
    dictGet (setAttr a k v) k = some v := by
  unfold setAttr
  split
  · exact dictGet_map_overwrite a k v (by assumption)
  · rename_i hany
    rw [dictGet_append, dictGet_eq_none a k (by rwa [Bool.not_eq_true] at hany)]
    simp [dictGet]

lemma dictGet_setAttr_ne (a : List (String × String)) (k v k' : String)
    (h : ¬(k' = k)) :
    dictGet (setAttr a k v) k' = dictGet a k' := by
  unfold setAttr
  split
  · exact dictGet_map_preserve a k v k' h
  · rw [dictGet_append]
    cases hd : dictGet a k' with
    | some w => simp
    | none =>
      have hkk : ¬(k = k') := fun hh => h hh.symm
      simp [dictGet, hkk]

lemma setAttr_of_fresh (a : List (String × String)) (k v : String)
    (h : a.any (fun p => decide (p.1 = k)) = false) :
    setAttr a k v = a ++ [(k, v)] := by
  unfold setAttr
  rw [if_neg]
  simp [h]

lemma dictGet_copy_coords (ds : List String) (coords : List (String × List ℚ))
    (d : String) :
    dictGet (ds.filterMap (fun x => (dictGet coords x).map (fun c => (x, c)))) d
      = if d ∈ ds then dictGet coords d else none := by
  induction ds with
  | nil => simp [dictGet]
  | cons x rest ih =>
    cases hx : dictGet coords x with
    | none =>
      simp only [List.filterMap_cons, hx, Option.map_none']
      rw [ih]
      by_cases hd : d = x
      · subst hd
        simp [hx]
      · simp [List.mem_cons, hd]
    | some c =>
      simp only [List.filterMap_cons, hx, Option.map_some']
      by_cases hd : x = d
      · subst hd
        simp [dictGet, hx]
      · have hd' : ¬(d = x) := fun hh => hd hh.symm
        simp [dictGet, hd, ih, List.mem_cons, hd']

/-- C9: before coordinate interpolation, masking and post-processing, the
output array keeps the input's name, dimension names and attributes, gains a
`regrid_method` attribute equal to the regridder's method, and carries exactly
the input's coordinates on all dimensions but the last two, which receive no
coordinates. -/
theorem output_metadata (libs : Libs) (self : RegridderD) (da_in : DataArray)
    (renormalize : Bool) :
    ((regrid_dataarray libs self da_in renormalize none [] none).1).name = da_in.name ∧
    ((regrid_dataarray libs self da_in renormalize none [] none).1).dims = da_in.dims ∧
    dictGet ((regrid_dataarray libs self da_in renormalize none [] none).1).attrs
        "regrid_method" = some self.method ∧
    (∀ k, ¬(k = "regrid_method") →
       dictGet ((regrid_dataarray libs self da_in renormalize none [] none).1).attrs k
         = dictGet da_in.attrs k) ∧
    ("regrid_method" ∉ da_in.attrs.map Prod.fst →
       ((regrid_dataarray libs self da_in renormalize none [] none).1).attrs
         = da_in.attrs ++ [("regrid_method", self.method)]) ∧
    (∀ d, dictGet ((regrid_dataarray libs self da_in renormalize none [] none).1).coords d
       = if d ∈ da_in.dims.take (da_in.dims.length - 2) then dictGet da_in.coords d
         else none) := by
  have hattrs : ((regrid_dataarray libs self da_in renormalize none [] none).1).attrs
      = setAttr da_in.attrs "regrid_method" self.method := rfl
  have hcoords : ((regrid_dataarray libs self da_in renormalize none [] none).1).coords
      = (da_in.dims.take (da_in.dims.length - 2)).filterMap
          (fun d => (dictGet da_in.coords d).map (fun c => (d, c))) := rfl
  refine ⟨rfl, rfl, ?_, ?_, ?_, ?_⟩
  · rw [hattrs]
    exact dictGet_setAttr_self _ _ _
  · intro k hk
    rw [hattrs]
    exact dictGet_setAttr_ne _ _ _ _ hk
  · intro hfresh
    rw [hattrs]
    apply setAttr_of_fresh
    simp only [List.any_eq_false]
    intro x hx hxk
    exact hfresh (List.mem_map.mpr ⟨x, hx, of_decide_eq_true hxk⟩)
  · intro d
    rw [hcoords]
    exact dictGet_copy_coords _ _ _

/-! ## Claim C5: renormalization semantics -/

/-- C5: with renormalize set, missing source values are replaced by zero, the
weights are also applied to the indicator of non-missing cells, the remapped
data is divided by the remapped indicator, and destination cells whose
remapped indicator is not strictly positive become missing (NaN). -/
theorem renormalize_semantics (libs : Libs) (self : RegridderD) (da_in : DataArray)
    (i : Nat) (o d : Val)
    (ho : (self.A (onesWhere da_in.values))[i]? = some o)
    (hd : (self.A (nanToZero da_in.values))[i]? = some d) :
    ((regrid_dataarray libs self da_in true none [] none).1).values[i]?
      = some (if valGt0 o then valDiv d o else none) := by
  have hvals : ((regrid_dataarray libs self da_in true none [] none).1).values
      = List.zipWith (fun dv ov => if valGt0 ov then dv else none)
          (List.zipWith valDiv (self.A (nanToZero da_in.values))
            ((self.A (onesWhere da_in.values)).map (fun v => if valGt0 v then v else none)))
          ((self.A (onesWhere da_in.values)).map (fun v => if valGt0 v then v else none)) := rfl
  rw [hvals]
  simp only [List.getElem?_zipWith, List.getElem?_map, ho, hd, Option.map_some']
  by_cases hgt : valGt0 o
  · simp [hgt]
  · rw [if_neg hgt, if_neg hgt]
    simp [valGt0]

/-- Witness for C5: identity weights on a two-cell field whose second cell is
missing; the first destination cell keeps its renormalized value. -/
theorem renormalize_semantics_witness :
    ((regrid_dataarray
        { interp := fun da _ _ => da, xwhere := fun da _ => da }
        { A := fun v => v, method := "bilinear" }
        { name := some "t", dims := ["y", "x"], coords := [], attrs := [],
          values := [some 2, none] }
        true none [] none).1).values[0]?
      = some (if valGt0 (some 1) then valDiv (some 2) (some 1) else none) :=
  renormalize_semantics
    { interp := fun da _ _ => da, xwhere := fun da _ => da }
    { A := fun v => v, method := "bilinear" }
    { name := some "t", dims := ["y", "x"], coords := [], attrs := [],
      values := [some 2, none] }
    0 (some 1) (some 2) (by rfl) (by rfl)

/-! ## Claim C10: mask with mismatched dims, and skipped interp entries -/

lemma interpLoop_dims (libs : Libs)
    (hinterp : ∀ da x y, (libs.interp da x y).dims = da.dims)
    (l : List (String × List ℚ)) (da : DataArray) :
    (interpLoop libs l da).dims = da.dims := by
  induction l generalizing da with
  | nil => rfl
  | cons p rest ih =>
    simp only [interpLoop, List.foldl_cons]
    by_cases hp : p.1 ∈ da.dims
    · rw [if_pos hp]
      have := ih (libs.interp da p.1 p.2)
      simp only [interpLoop] at this
      rw [this]
      exact hinterp da p.1 p.2
    · rw [if_neg hp]
      have := ih da
      simp only [interpLoop] at this
      exact this

lemma interpLoop_append (libs : Libs) (l1 l2 : List (String × List ℚ)) (da : DataArray) :
    interpLoop libs (l1 ++ l2) da = interpLoop libs l2 (interpLoop libs l1 da) := by
  simp [interpLoop, List.foldl_append]

lemma interpLoop_cons_skip (libs : Libs) (l : List (String × List ℚ))
    (d : String) (c : List ℚ) (da : DataArray) (hd : d ∉ da.dims) :
    interpLoop libs ((d, c) :: l) da = interpLoop libs l da := by
  unfold interpLoop
  rw [List.foldl_cons, if_neg (show ¬((d, c).1 ∈ da.dims) from hd)]

lemma interpLoop_skip (libs : Libs)
    (hinterp : ∀ da x y, (libs.interp da x y).dims = da.dims)
    (ic1 ic2 : List (String × List ℚ)) (d : String) (c : List ℚ)
    (da0 : DataArray) (hd : d ∉ da0.dims) :
    interpLoop libs (ic1 ++ (d, c) :: ic2) da0 = interpLoop libs (ic1 ++ ic2) da0 := by
  have h1 : (interpLoop libs ic1 da0).dims = da0.dims := interpLoop_dims libs hinterp ic1 da0
  have hcond : d ∉ (interpLoop libs ic1 da0).dims := by
    rw [h1]
    exact hd
  rw [interpLoop_append, interpLoop_append, interpLoop_cons_skip libs ic2 d c _ hcond]

/-- C10: a mask whose dims differ from the input array's does not make the
regrid raise: the mask is still applied and a warning is logged; and an
`interp_coord` entry whose dimension is not a dimension of the output array
has no effect on the result. -/
theorem mask_warn_and_interp_skip (libs : Libs) (self : RegridderD)
    (da_in m : DataArray) (renormalize : Bool)
    (ic ic1 ic2 : List (String × List ℚ)) (d : String) (c : List ℚ)
    (apply_mask : Option DataArray) (post_method : Option (DataArray → DataArray))
    (hinterp : ∀ da x y, (libs.interp da x y).dims = da.dims)
    (hm : ¬(m.dims = da_in.dims)) (hd : d ∉ da_in.dims) :
    regrid_dataarray libs self da_in renormalize (some m) ic none
      = (libs.xwhere (regrid_dataarray libs self da_in renormalize none ic none).1 m,
         [maskWarning m.dims da_in.dims]) ∧
    regrid_dataarray libs self da_in renormalize apply_mask (ic1 ++ (d, c) :: ic2) post_method
      = regrid_dataarray libs self da_in renormalize apply_mask (ic1 ++ ic2) post_method := by
  constructor
  · simp [regrid_dataarray, hm]
  · unfold regrid_dataarray
    simp only []
    rw [interpLoop_skip libs hinterp ic1 ic2 d c]
    exact hd

/-- Identity stand-ins for the external `xarray` calls used at test inputs. -/
def maskLibs : Libs where
  interp := fun da _ _ => da
  xwhere := fun da _ => da

/-- Identity-weight regridder used at test inputs. -/
def maskRegridder : RegridderD where
  A := fun v => v
  method := "m"

/-- Test input array with dims `["y", "x"]`. -/
def maskData : DataArray where
  name := none
  dims := ["y", "x"]
  coords := []
  attrs := []
  values := [some 1]

/-- Test mask whose dims differ from the input array's. -/
def maskMask : DataArray where
  name := none
  dims := ["a"]
  coords := []
  attrs := []
  values := []

/-- Witness for C10 at concrete inputs: a mask with dims `["a"]` against data
with dims `["y", "x"]`, and an interp entry on the dimension `"z"` absent from
the data. -/
theorem mask_warn_and_interp_skip_witness :
    regrid_dataarray maskLibs maskRegridder maskData false (some maskMask) [] none
      = (maskLibs.xwhere
           (regrid_dataarray maskLibs maskRegridder maskData false none [] none).1 maskMask,
         [maskWarning maskMask.dims maskData.dims]) ∧
    regrid_dataarray maskLibs maskRegridder maskData false none
        ([("y", [1])] ++ ("z", [2]) :: []) none
      = regrid_dataarray maskLibs maskRegridder maskData false none ([("y", [1])] ++ []) none :=
  mask_warn_and_interp_skip maskLibs maskRegridder maskData maskMask false []
    [("y", [1])] [] "z" [2] none none
    (fun _ _ _ => rfl) (by decide) (by decide)
